import Mathlib

/-!
Shallow embedding of the AeroPulse backend (`backend/main.py`): the upstream
air-quality client endpoints, the in-memory profile store, and the diagnostic
scorer, together with theorems checking the specification against them.
JSON numbers are modelled exactly as rationals.
-/

namespace AeroPulse

/-- JSON-like values, as carried by a pydantic `dict` body.  Objects are
association lists; real Python dicts have unique keys, so lookup of the first
matching key is the dict lookup. -/
inductive JVal where
  | jnull
  | jbool (b : Bool)
  | jnum (q : ℚ)
  | jstr (s : String)
  | jarr (elems : List JVal)
  | jobj (fields : List (String × JVal))

/-- Python `d.get(key, default)` on a value statically known to be a dict. -/
def dictGetD (fields : List (String × JVal)) (key : String) (dflt : JVal) : JVal :=
  (fields.lookup key).getD dflt

/-- Python `v.get(key, default)` on an arbitrary value: raises
`AttributeError` when `v` is not a dict. -/
def jattrGetD (v : JVal) (key : String) (dflt : JVal) : Except String JVal :=
  match v with
  | .jobj fields => .ok (dictGetD fields key dflt)
  | _ => .error "AttributeError: object has no attribute get"

/-- Python numeric coercion as used by `aqi * multiplier`: ints and floats are
numbers, `bool` counts as an int (`True` is 1); anything else raises
`TypeError`. -/
def pyNum : JVal → Except String ℚ
  | .jnum q => .ok q
  | .jbool b => .ok (if b then 1 else 0)
  | _ => .error "TypeError: unsupported operand type"

/-- Python builtin `round` to an integer: round half to even. -/
def pyRound (q : ℚ) : ℤ :=
  if q - q.floor < 1/2 then q.floor
  else if 1/2 < q - q.floor then q.floor + 1
  else if q.floor % 2 = 0 then q.floor else q.floor + 1

/-- Request body of `POST /api/diagnostic/run` (`DiagnosticRequest` model);
pydantic guarantees `air_data` is a dict. -/
structure DiagnosticRequest where
  user_id : String
  air_data : List (String × JVal)
  condition : String
  smoke : Bool
  drink : Bool

/-- The `air_quality` object echoed back in the diagnostic response. -/
structure AirQualityEcho where
  aqi : JVal
  pm25 : JVal
  no2 : JVal
  so2 : JVal
  co : JVal

/-- Response body of `POST /api/diagnostic/run`. -/
structure DiagnosticResult where
  score : ℤ
  risk_level : String
  recommendation : String
  air_quality : AirQualityEcho

/-- The `condition_multipliers` dict of `run_diagnostic`. -/
def condition_multipliers : List (String × ℚ) :=
  [("Healthy", 1.0), ("Asthma", 2.5), ("COPD", 4.0)]

/-- `condition_multipliers.get(request.condition, 1.0)`. -/
def multiplier_of (condition : String) : ℚ :=
  (condition_multipliers.lookup condition).getD 1.0

/-- `air.get("main", \x7b\x7d).get("aqi", 1)`. -/
def get_aqi (air : List (String × JVal)) : Except String JVal :=
  jattrGetD (dictGetD air "main" (.jobj [])) "aqi" (.jnum 1)

/-- `air.get("components", \x7b\x7d).get(key, 0)`. -/
def get_component (air : List (String × JVal)) (key : String) : Except String JVal :=
  jattrGetD (dictGetD air "components" (.jobj [])) key (.jnum 0)

/-- The score accumulation of `run_diagnostic`: base score from aqi and the
condition multiplier, then the additive lifestyle penalties. -/
def score_of (aqi : ℚ) (condition : String) (smoke drink : Bool) : ℚ :=
  let score := aqi * multiplier_of condition
  let score := if smoke then score + 80 else score
  let score := if drink then score + 20 else score
  score

/-- The risk-level ladder of `run_diagnostic`: label and base recommendation
text selected by the strict upper bounds 50, 100, 150, 200. -/
def risk_of (score : ℚ) : String × String :=
  if score < 50 then
    ("Low", "Air quality is good. Maintain your healthy lifestyle.")
  else if score < 100 then
    ("Moderate", "Air quality is moderate. Consider limiting outdoor activities if you have respiratory issues.")
  else if score < 150 then
    ("High", "Air quality is unhealthy. Limit outdoor exposure and use protective measures.")
  else if score < 200 then
    ("Very High", "Air quality is very unhealthy. Avoid outdoor activities.")
  else
    ("Hazardous", "Air quality is hazardous. Stay indoors and use air purification.")

/-- Condition-specific advice appended after the base recommendation. -/
def condition_advice (condition : String) : String :=
  if condition = "Asthma" then " Keep your inhaler accessible."
  else if condition = "COPD" then " Monitor your oxygen levels closely."
  else ""

/-- Smoking warning appended last. -/
def smoke_advice (smoke : Bool) : String :=
  if smoke then " Smoking significantly degrades your alveolar capacity." else ""

/-- Body of the `run_diagnostic` handler (the code inside its `try`).  An
`Except.error` is a Python exception propagating to the blanket
`except Exception` clause. -/
def run_diagnostic (request : DiagnosticRequest) : Except String DiagnosticResult := do
  let air := request.air_data
  let aqi ← get_aqi air
  let pm25 ← get_component air "pm2_5"
  let no2 ← get_component air "no2"
  let so2 ← get_component air "so2"
  let co ← get_component air "co"
  let aqiN ← pyNum aqi
  let score := score_of aqiN request.condition request.smoke request.drink
  let rl := risk_of score
  let recommendation := rl.2 ++ condition_advice request.condition ++ smoke_advice request.smoke
  return { score := pyRound score
           risk_level := rl.1
           recommendation := recommendation
           air_quality := { aqi := aqi, pm25 := pm25, no2 := no2, so2 := so2, co := co } }

/-- The full endpoint: the `except Exception` clause turns any exception into
`HTTPException(500, str(e))`. -/
def api_diagnostic_run (request : DiagnosticRequest) : Except (ℕ × String) DiagnosticResult :=
  (run_diagnostic request).mapError (fun e => (500, e))

/-- Request body of `POST /api/profile/save` (`UserProfile` model). -/
structure UserProfile where
  user_id : String
  condition : String
  smoke : Bool
  drink : Bool
  air_data : Option (List (String × JVal))

/-- A record stored in the `user_profiles` dict. -/
structure StoredProfile where
  condition : String
  smoke : Bool
  drink : Bool
  air_data : Option (List (String × JVal))
  updated_at : String

/-- The in-memory `user_profiles` dict, keyed by user id. -/
def ProfileStore : Type := String → Option StoredProfile

/-- The store at process start: empty. -/
def emptyStore : ProfileStore := fun _ => none

/-- Success acknowledgement returned by `save_user_profile`. -/
structure Ack where
  status : String
  message : String

/-- `POST /api/profile/save`: unconditionally writes the entry keyed by
`profile.user_id`, stamping `updated_at` with the current time `now`
(`datetime.now().isoformat()`), and returns the success acknowledgement. -/
def save_user_profile (store : ProfileStore) (profile : UserProfile) (now : String) :
    ProfileStore × Ack :=
  (fun uid =>
      if uid = profile.user_id then
        some { condition := profile.condition
               smoke := profile.smoke
               drink := profile.drink
               air_data := profile.air_data
               updated_at := now }
      else store uid,
   { status := "success", message := "Profile saved successfully" })

/-- `GET /api/profile/(user_id)`: 404 when the key is absent, otherwise the
stored record. -/
def get_user_profile (store : ProfileStore) (user_id : String) :
    Except (ℕ × String) StoredProfile :=
  match store user_id with
  | none => .error (404, "Profile not found")
  | some p => .ok p

/-- The `run_diagnostic` handler viewed at application-state level: its body
never reads or writes `user_profiles`, so the store passes through
untouched. -/
def app_run_diagnostic (store : ProfileStore) (request : DiagnosticRequest) :
    ProfileStore × Except (ℕ × String) DiagnosticResult :=
  (store, api_diagnostic_run request)

/-- Outcome of the `requests.get` call to the provider, as observed by the
handler: a decoded successful body, a response with non-success status
(`not response.ok`), or a raised transport exception. -/
inductive ProviderOutcome where
  | success (body : JVal)
  | httpFailure (status : ℕ)
  | transportFailure (msg : String)

/-- A Python exception value: a fastapi `HTTPException` or any other
exception carrying its text. -/
inductive PyExc where
  | httpException (status : ℕ) (detail : String)
  | otherExc (msg : String)

/-- Python `str(e)`: starlette `HTTPException.__str__` yields
`"(status): (detail)"`; other exceptions yield their message. -/
def pyStr : PyExc → String
  | .httpException status detail => toString status ++ ": " ++ detail
  | .otherExc msg => msg

/-- Body of the `get_air_quality` handler (inside its `try`): on a non-ok
response it raises `HTTPException(response.status_code, ...)`; a transport
failure is a raised exception. -/
def get_air_quality_try (resp : ProviderOutcome) : Except PyExc JVal :=
  match resp with
  | .success body => .ok body
  | .httpFailure status => .error (.httpException status "Failed to fetch air quality data")
  | .transportFailure msg => .error (.otherExc msg)

/-- `GET /api/air-quality`: the blanket `except Exception` catches every
exception raised in the `try` body, including the `HTTPException` carrying
the provider status, and re-raises `HTTPException(500, str(e))`. -/
def get_air_quality (resp : ProviderOutcome) : Except (ℕ × String) JVal :=
  match get_air_quality_try resp with
  | .ok v => .ok v
  | .error e => .error (500, pyStr e)

/-- Body of the `get_air_quality_history` handler (inside its `try`). -/
def get_air_quality_history_try (resp : ProviderOutcome) : Except PyExc JVal :=
  match resp with
  | .success body => .ok body
  | .httpFailure status => .error (.httpException status "Failed to fetch air quality history")
  | .transportFailure msg => .error (.otherExc msg)

/-- `GET /api/air-quality/history`: same exception structure as
`get_air_quality`. -/
def get_air_quality_history (resp : ProviderOutcome) : Except (ℕ × String) JVal :=
  match get_air_quality_history_try resp with
  | .ok v => .ok v
  | .error e => .error (500, pyStr e)

/-!  Shared helper lemmas. -/

/-- `Rat.floor` agrees with the `FloorRing` floor on `ℚ`. -/
theorem ratFloor_eq_intFloor (q : ℚ) : q.floor = ⌊q⌋ := by
  rw [Rat.floor_def, Rat.floor_def']

/-- Inversion for a successful `Except` bind. -/
theorem exceptBind_ok {α β : Type} {x : Except String α} {f : α → Except String β} {b : β}
    (h : x >>= f = .ok b) : ∃ a, x = .ok a ∧ f a = .ok b := by
  cases x with
  | error e =>
      simp only [Bind.bind, Except.bind] at h
      exact Except.noConfusion h
  | ok a => exact ⟨a, rfl, by simpa only [Bind.bind, Except.bind] using h⟩

/-- Structure of every successful diagnostic run: the extracted values exist
and the response fields are exactly the score, risk ladder entry and
concatenated recommendation computed from them. -/
theorem run_diagnostic_spec (request : DiagnosticRequest) (res : DiagnosticResult)
    (h : run_diagnostic request = .ok res) :
    ∃ aqiJ pm25 no2 so2 co aqiN,
      get_aqi request.air_data = .ok aqiJ ∧
      get_component request.air_data "pm2_5" = .ok pm25 ∧
      get_component request.air_data "no2" = .ok no2 ∧
      get_component request.air_data "so2" = .ok so2 ∧
      get_component request.air_data "co" = .ok co ∧
      pyNum aqiJ = .ok aqiN ∧
      res = { score := pyRound (score_of aqiN request.condition request.smoke request.drink)
              risk_level := (risk_of (score_of aqiN request.condition request.smoke request.drink)).1
              recommendation :=
                (risk_of (score_of aqiN request.condition request.smoke request.drink)).2
                  ++ condition_advice request.condition ++ smoke_advice request.smoke
              air_quality := ⟨aqiJ, pm25, no2, so2, co⟩ } := by
  unfold run_diagnostic at h
  obtain ⟨aqiJ, h1, h⟩ := exceptBind_ok h
  obtain ⟨pm25, h2, h⟩ := exceptBind_ok h
  obtain ⟨no2, h3, h⟩ := exceptBind_ok h
  obtain ⟨so2, h4, h⟩ := exceptBind_ok h
  obtain ⟨co, h5, h⟩ := exceptBind_ok h
  obtain ⟨aqiN, h6, h⟩ := exceptBind_ok h
  simp only [pure, Except.pure, Except.ok.injEq] at h
  exact ⟨aqiJ, pm25, no2, so2, co, aqiN, h1, h2, h3, h4, h5, h6, h.symm⟩

/-- The ladder at scores below 50. -/
theorem risk_of_eq_low {s : ℚ} (h : s < 50) :
    risk_of s = ("Low", "Air quality is good. Maintain your healthy lifestyle.") := by
  unfold risk_of
  rw [if_pos h]

/-- The ladder between 50 and 100. -/
theorem risk_of_eq_moderate {s : ℚ} (h0 : 50 ≤ s) (h : s < 100) :
    risk_of s = ("Moderate", "Air quality is moderate. Consider limiting outdoor activities if you have respiratory issues.") := by
  unfold risk_of
  rw [if_neg (not_lt.mpr h0), if_pos h]

/-- The ladder between 100 and 150. -/
theorem risk_of_eq_high {s : ℚ} (h0 : 100 ≤ s) (h : s < 150) :
    risk_of s = ("High", "Air quality is unhealthy. Limit outdoor exposure and use protective measures.") := by
  unfold risk_of
  rw [if_neg (not_lt.mpr (by linarith)), if_neg (not_lt.mpr h0), if_pos h]

/-- The ladder between 150 and 200. -/
theorem risk_of_eq_very_high {s : ℚ} (h0 : 150 ≤ s) (h : s < 200) :
    risk_of s = ("Very High", "Air quality is very unhealthy. Avoid outdoor activities.") := by
  unfold risk_of
  rw [if_neg (not_lt.mpr (by linarith)), if_neg (not_lt.mpr (by linarith)),
    if_neg (not_lt.mpr h0), if_pos h]

/-- The ladder at and above 200. -/
theorem risk_of_eq_hazardous {s : ℚ} (h0 : 200 ≤ s) :
    risk_of s = ("Hazardous", "Air quality is hazardous. Stay indoors and use air purification.") := by
  unfold risk_of
  rw [if_neg (not_lt.mpr (by linarith)), if_neg (not_lt.mpr (by linarith)),
    if_neg (not_lt.mpr (by linarith)), if_neg (not_lt.mpr h0)]

/-- The three known conditions. -/
theorem multiplier_of_healthy : multiplier_of "Healthy" = 1 := by
  have h : multiplier_of "Healthy" = (1.0 : ℚ) := rfl
  rw [h]
  norm_num

theorem multiplier_of_asthma : multiplier_of "Asthma" = 5/2 := by
  have h : multiplier_of "Asthma" = (2.5 : ℚ) := rfl
  rw [h]
  norm_num

theorem multiplier_of_copd : multiplier_of "COPD" = 4 := by
  have h : multiplier_of "COPD" = (4.0 : ℚ) := rfl
  rw [h]
  norm_num

/-- Dict lookup misses fall back to 1.0. -/
theorem multiplier_of_other {c : String} (h1 : c ≠ "Healthy") (h2 : c ≠ "Asthma")
    (h3 : c ≠ "COPD") : multiplier_of c = 1 := by
  have e1 : (c == "Healthy") = false := beq_eq_false_iff_ne.mpr h1
  have e2 : (c == "Asthma") = false := beq_eq_false_iff_ne.mpr h2
  have e3 : (c == "COPD") = false := beq_eq_false_iff_ne.mpr h3
  simp only [multiplier_of, condition_multipliers, List.lookup, e1, e2, e3, Option.getD]
  norm_num

/-- Every multiplier is one of the three dict values or the fallback. -/
theorem multiplier_of_cases (c : String) :
    multiplier_of c = 1 ∨ multiplier_of c = 5/2 ∨ multiplier_of c = 4 := by
  by_cases h1 : c = "Healthy"
  · exact Or.inl (h1 ▸ multiplier_of_healthy)
  by_cases h2 : c = "Asthma"
  · exact Or.inr (Or.inl (h2 ▸ multiplier_of_asthma))
  by_cases h3 : c = "COPD"
  · exact Or.inr (Or.inr (h3 ▸ multiplier_of_copd))
  exact Or.inl (multiplier_of_other h1 h2 h3)

/-- Every multiplier is positive. -/
theorem multiplier_of_pos (c : String) : 0 < multiplier_of c := by
  rcases multiplier_of_cases c with h | h | h <;> rw [h] <;> norm_num

/-- The stepwise score accumulation written as one sum. -/
theorem score_of_eq (aqi : ℚ) (c : String) (sm dr : Bool) :
    score_of aqi c sm dr =
      aqi * multiplier_of c + (if sm then 80 else 0) + (if dr then 20 else 0) := by
  unfold score_of
  cases sm <;> cases dr <;> simp

/-- `get_aqi` reads nothing but the "main" entry. -/
theorem get_aqi_congr {air1 air2 : List (String × JVal)}
    (h : air1.lookup "main" = air2.lookup "main") : get_aqi air1 = get_aqi air2 := by
  unfold get_aqi dictGetD
  rw [h]

/-!  Concrete requests and their evaluated responses, used as examples and
witnesses. -/

/-- A healthy user at provider air-quality index 3. -/
def healthyReq : DiagnosticRequest :=
  ⟨"u1", [("main", JVal.jobj [("aqi", JVal.jnum 3)])], "Healthy", false, false⟩

/-- The response to `healthyReq`: score 3, Low. -/
def healthyRes : DiagnosticResult :=
  { score := 3
    risk_level := "Low"
    recommendation := "Air quality is good. Maintain your healthy lifestyle."
    air_quality := ⟨JVal.jnum 3, JVal.jnum 0, JVal.jnum 0, JVal.jnum 0, JVal.jnum 0⟩ }

theorem run_diagnostic_healthy : run_diagnostic healthyReq = .ok healthyRes := by
  have h1 : get_aqi [("main", JVal.jobj [("aqi", JVal.jnum 3)])] = .ok (JVal.jnum 3) := rfl
  have h2 : ∀ k, get_component [("main", JVal.jobj [("aqi", JVal.jnum 3)])] k = .ok (JVal.jnum 0) := fun k => rfl
  have h3 : pyNum (JVal.jnum 3) = .ok 3 := rfl
  have h4 : multiplier_of "Healthy" = (1.0 : ℚ) := rfl
  have h5 : condition_advice "Healthy" = "" := rfl
  have h6 : smoke_advice false = "" := rfl
  have h7 : ∀ s : String, s ++ "" = s := fun s => String.append_empty s
  simp only [run_diagnostic, healthyReq, healthyRes, h1, h2, h3, h5, h6, h7,
    Bind.bind, Except.bind, pure, Except.pure]
  norm_num [score_of, h4, risk_of, pyRound, ratFloor_eq_intFloor]

/-- A COPD patient who smokes and drinks, at air-quality index 5. -/
def copdReq : DiagnosticRequest :=
  ⟨"u2", [("main", JVal.jobj [("aqi", JVal.jnum 5)])], "COPD", true, true⟩

/-- The response to `copdReq`: score 120, High, oxygen note before smoking
note. -/
def copdRes : DiagnosticResult :=
  { score := 120
    risk_level := "High"
    recommendation := "Air quality is unhealthy. Limit outdoor exposure and use protective measures. Monitor your oxygen levels closely. Smoking significantly degrades your alveolar capacity."
    air_quality := ⟨JVal.jnum 5, JVal.jnum 0, JVal.jnum 0, JVal.jnum 0, JVal.jnum 0⟩ }

theorem run_diagnostic_copd : run_diagnostic copdReq = .ok copdRes := by
  have h1 : get_aqi [("main", JVal.jobj [("aqi", JVal.jnum 5)])] = .ok (JVal.jnum 5) := rfl
  have h2 : ∀ k, get_component [("main", JVal.jobj [("aqi", JVal.jnum 5)])] k = .ok (JVal.jnum 0) := fun k => rfl
  have h3 : pyNum (JVal.jnum 5) = .ok 5 := rfl
  have h4 : multiplier_of "COPD" = (4.0 : ℚ) := rfl
  have h5 : condition_advice "COPD" = " Monitor your oxygen levels closely." := rfl
  have h6 : smoke_advice true = " Smoking significantly degrades your alveolar capacity." := rfl
  simp only [run_diagnostic, copdReq, copdRes, h1, h2, h3, h5, h6,
    Bind.bind, Except.bind, pure, Except.pure]
  norm_num [score_of, h4, risk_of, pyRound, ratFloor_eq_intFloor]
  rfl

/-!  Claim theorems. -/

/-- C2: for every diagnostic request, the returned risk_level is determined
from the pre-rounding score by half-open bands with exclusive upper bounds:
below 50 gives Low, 50 to below 100 gives Moderate, 100 to below 150 gives
High, 150 to below 200 gives Very High, and at or above 200 gives Hazardous;
in particular the boundary scores 50, 100, 150 and 200 fall in the upper
band. -/
theorem claim_C2_risk_level_bands (request : DiagnosticRequest) (res : DiagnosticResult)
    (aqiJ : JVal) (aqiN s : ℚ)
    (hrun : run_diagnostic request = .ok res)
    (haqi : get_aqi request.air_data = .ok aqiJ)
    (hnum : pyNum aqiJ = .ok aqiN)
    (hs : s = score_of aqiN request.condition request.smoke request.drink) :
    (s < 50 → res.risk_level = "Low") ∧
    (50 ≤ s → s < 100 → res.risk_level = "Moderate") ∧
    (100 ≤ s → s < 150 → res.risk_level = "High") ∧
    (150 ≤ s → s < 200 → res.risk_level = "Very High") ∧
    (200 ≤ s → res.risk_level = "Hazardous") ∧
    (s = 50 → res.risk_level = "Moderate") ∧
    (s = 100 → res.risk_level = "High") ∧
    (s = 150 → res.risk_level = "Very High") ∧
    (s = 200 → res.risk_level = "Hazardous") := by
  obtain ⟨aqiJ', pm25, no2, so2, co, aqiN', h1, _, _, _, _, h6, hres⟩ :=
    run_diagnostic_spec request res hrun
  rw [haqi] at h1
  obtain rfl : aqiJ = aqiJ' := Except.ok.inj h1
  rw [hnum] at h6
  obtain rfl : aqiN = aqiN' := Except.ok.inj h6
  subst hres
  subst hs
  refine ⟨fun h => ?_, fun h0 h => ?_, fun h0 h => ?_, fun h0 h => ?_, fun h0 => ?_,
    fun h0 => ?_, fun h0 => ?_, fun h0 => ?_, fun h0 => ?_⟩
  · show (risk_of _).1 = _
    rw [risk_of_eq_low h]
  · show (risk_of _).1 = _
    rw [risk_of_eq_moderate h0 h]
  · show (risk_of _).1 = _
    rw [risk_of_eq_high h0 h]
  · show (risk_of _).1 = _
    rw [risk_of_eq_very_high h0 h]
  · show (risk_of _).1 = _
    rw [risk_of_eq_hazardous h0]
  · show (risk_of _).1 = _
    rw [risk_of_eq_moderate (le_of_eq h0.symm) (by rw [h0]; norm_num)]
  · show (risk_of _).1 = _
    rw [risk_of_eq_high (le_of_eq h0.symm) (by rw [h0]; norm_num)]
  · show (risk_of _).1 = _
    rw [risk_of_eq_very_high (le_of_eq h0.symm) (by rw [h0]; norm_num)]
  · show (risk_of _).1 = _
    rw [risk_of_eq_hazardous (le_of_eq h0.symm)]

/-- Witness for C2 at air-quality index 3, Healthy, no flags: score 3, Low. -/
theorem claim_C2_witness :
    run_diagnostic healthyReq = .ok healthyRes ∧ healthyRes.risk_level = "Low" :=
  ⟨run_diagnostic_healthy,
   (claim_C2_risk_level_bands healthyReq healthyRes (JVal.jnum 3) 3 3
      run_diagnostic_healthy rfl rfl
      (by simp only [healthyReq]; rw [score_of_eq, multiplier_of_healthy]; norm_num)).1
      (by norm_num)⟩

/-- C3: the pre-rounding score is aqi times the condition multiplier, plus 80
if smoke, plus 20 if drink; it is monotone in aqi, and each flag adds its
constant independently of the other flag and of the condition. -/
theorem claim_C3_score_additive (request : DiagnosticRequest) (res : DiagnosticResult)
    (aqiJ : JVal) (aqiN s : ℚ)
    (hrun : run_diagnostic request = .ok res)
    (haqi : get_aqi request.air_data = .ok aqiJ)
    (hnum : pyNum aqiJ = .ok aqiN)
    (hs : s = score_of aqiN request.condition request.smoke request.drink) :
    res.score = pyRound s ∧
    s = aqiN * multiplier_of request.condition
        + (if request.smoke then 80 else 0) + (if request.drink then 20 else 0) ∧
    (∀ a b : ℚ, a ≤ b → ∀ (c : String) (sm dr : Bool),
      score_of a c sm dr ≤ score_of b c sm dr) ∧
    (∀ (a : ℚ) (c : String) (dr : Bool), score_of a c true dr = score_of a c false dr + 80) ∧
    (∀ (a : ℚ) (c : String) (sm : Bool), score_of a c sm true = score_of a c sm false + 20) := by
  obtain ⟨aqiJ', pm25, no2, so2, co, aqiN', h1, _, _, _, _, h6, hres⟩ :=
    run_diagnostic_spec request res hrun
  rw [haqi] at h1
  obtain rfl : aqiJ = aqiJ' := Except.ok.inj h1
  rw [hnum] at h6
  obtain rfl : aqiN = aqiN' := Except.ok.inj h6
  subst hres
  refine ⟨by rw [hs], by rw [hs, score_of_eq], fun a b hab c sm dr => ?_,
    fun a c dr => ?_, fun a c sm => ?_⟩
  · rw [score_of_eq, score_of_eq]
    have hm := multiplier_of_pos c
    have : a * multiplier_of c ≤ b * multiplier_of c :=
      mul_le_mul_of_nonneg_right hab (le_of_lt hm)
    linarith
  · rw [score_of_eq, score_of_eq]
    simp
    ring
  · rw [score_of_eq, score_of_eq]
    simp

/-- Witness for C3: at Healthy, aqi 3, no flags the returned score rounds the
raw score 3; adding the smoke flag adds 80 and the drink flag adds 20. -/
theorem claim_C3_witness :
    healthyRes.score = pyRound 3 ∧
    score_of 2 "Healthy" false false ≤ score_of 3 "Healthy" false false ∧
    score_of 1 "COPD" true false = score_of 1 "COPD" false false + 80 ∧
    score_of 1 "COPD" true true = score_of 1 "COPD" true false + 20 := by
  have h := claim_C3_score_additive healthyReq healthyRes (JVal.jnum 3) 3 3
    run_diagnostic_healthy rfl rfl
    (by simp only [healthyReq]; rw [score_of_eq, multiplier_of_healthy]; norm_num)
  exact ⟨h.1, h.2.2.1 2 3 (by norm_num) "Healthy" false false,
    h.2.2.2.1 1 "COPD" false, h.2.2.2.2 1 "COPD" true⟩

/-- C4: the condition multiplier is 2.5 for Asthma, 4.0 for COPD, 1.0 for
Healthy and 1.0 for every other condition string, silently. -/
theorem claim_C4_condition_multiplier :
    multiplier_of "Asthma" = 5/2 ∧
    multiplier_of "COPD" = 4 ∧
    multiplier_of "Healthy" = 1 ∧
    ∀ c : String, c ≠ "Healthy" → c ≠ "Asthma" → c ≠ "COPD" → multiplier_of c = 1 :=
  ⟨multiplier_of_asthma, multiplier_of_copd, multiplier_of_healthy,
   fun _ h1 h2 h3 => multiplier_of_other h1 h2 h3⟩

/-- Witness for C4 at the unrecognized condition "Diabetes". -/
theorem claim_C4_witness : multiplier_of "Diabetes" = 1 :=
  claim_C4_condition_multiplier.2.2.2 "Diabetes" (by decide) (by decide) (by decide)

/-- C5: the recommendation is composed in order: base text of the risk band,
then condition advice (inhaler for Asthma, oxygen for COPD, nothing
otherwise), then the smoking warning iff smoke; the worked example aqi 5,
COPD, smoke and drink yields score 120, High, oxygen note before the smoking
note. -/
theorem claim_C5_recommendation_order (request : DiagnosticRequest) (res : DiagnosticResult)
    (aqiJ : JVal) (aqiN s : ℚ)
    (hrun : run_diagnostic request = .ok res)
    (haqi : get_aqi request.air_data = .ok aqiJ)
    (hnum : pyNum aqiJ = .ok aqiN)
    (hs : s = score_of aqiN request.condition request.smoke request.drink) :
    res.recommendation =
      (risk_of s).2 ++ condition_advice request.condition ++ smoke_advice request.smoke ∧
    condition_advice "Asthma" = " Keep your inhaler accessible." ∧
    condition_advice "COPD" = " Monitor your oxygen levels closely." ∧
    (∀ c : String, c ≠ "Asthma" → c ≠ "COPD" → condition_advice c = "") ∧
    smoke_advice true = " Smoking significantly degrades your alveolar capacity." ∧
    smoke_advice false = "" ∧
    run_diagnostic copdReq = .ok copdRes ∧
    copdRes.score = 120 ∧
    copdRes.risk_level = "High" ∧
    copdRes.recommendation =
      "Air quality is unhealthy. Limit outdoor exposure and use protective measures."
        ++ " Monitor your oxygen levels closely."
        ++ " Smoking significantly degrades your alveolar capacity." := by
  obtain ⟨aqiJ', pm25, no2, so2, co, aqiN', h1, _, _, _, _, h6, hres⟩ :=
    run_diagnostic_spec request res hrun
  rw [haqi] at h1
  obtain rfl : aqiJ = aqiJ' := Except.ok.inj h1
  rw [hnum] at h6
  obtain rfl : aqiN = aqiN' := Except.ok.inj h6
  subst hres
  subst hs
  refine ⟨rfl, rfl, rfl, fun c hc1 hc2 => ?_, rfl, rfl, run_diagnostic_copd, rfl, rfl, rfl⟩
  unfold condition_advice
  rw [if_neg hc1, if_neg hc2]

/-- Witness for C5 at the worked COPD example: the recommendation is the
High-band base text, then the oxygen note, then the smoking note. -/
theorem claim_C5_witness :
    copdRes.recommendation =
      (risk_of 120).2 ++ condition_advice "COPD" ++ smoke_advice true :=
  (claim_C5_recommendation_order copdReq copdRes (JVal.jnum 5) 5 120
    run_diagnostic_copd rfl rfl
    (by simp only [copdReq]; rw [score_of_eq, multiplier_of_copd]; norm_num)).1

/-- C6 as stated is refuted by `claim_C6_counterexample`: an `air_data` whose
"main" entry is present but not an object makes the handler raise (the
request fails with 500), so "malformed input does not raise an error" is
false.  This theorem proves the amended claim: entries that are absent do
default (aqi to 1; each component to 0, also when "components" is missing
entirely), and a request with no "main" and no "components" succeeds with the
defaults echoed back. -/
theorem claim_C6_defaults (air : List (String × JVal)) :
    (air.lookup "main" = none → get_aqi air = .ok (.jnum 1)) ∧
    (∀ fs, air.lookup "main" = some (.jobj fs) → fs.lookup "aqi" = none →
      get_aqi air = .ok (.jnum 1)) ∧
    (air.lookup "components" = none → ∀ k, get_component air k = .ok (.jnum 0)) ∧
    (∀ fs k, air.lookup "components" = some (.jobj fs) → fs.lookup k = none →
      get_component air k = .ok (.jnum 0)) ∧
    run_diagnostic ⟨"u", [], "Healthy", false, false⟩ =
      .ok { score := 1
            risk_level := "Low"
            recommendation := "Air quality is good. Maintain your healthy lifestyle."
            air_quality := ⟨JVal.jnum 1, JVal.jnum 0, JVal.jnum 0, JVal.jnum 0, JVal.jnum 0⟩ } := by
  refine ⟨fun h => ?_, fun fs hm ha => ?_, fun h k => ?_, fun fs k hc hk => ?_, ?_⟩
  · simp [get_aqi, dictGetD, jattrGetD, h]
  · simp [get_aqi, dictGetD, jattrGetD, hm, ha]
  · simp [get_component, dictGetD, jattrGetD, h]
  · simp [get_component, dictGetD, jattrGetD, hc, hk]
  · have h1 : get_aqi ([] : List (String × JVal)) = .ok (JVal.jnum 1) := rfl
    have h2 : ∀ k, get_component ([] : List (String × JVal)) k = .ok (JVal.jnum 0) :=
      fun k => rfl
    have h3 : pyNum (JVal.jnum 1) = .ok 1 := rfl
    have h4 : multiplier_of "Healthy" = (1.0 : ℚ) := rfl
    have h5 : condition_advice "Healthy" = "" := rfl
    have h6 : smoke_advice false = "" := rfl
    have h7 : ∀ s : String, s ++ "" = s := fun s => String.append_empty s
    simp only [run_diagnostic, h1, h2, h3, h5, h6, h7, Bind.bind, Except.bind, pure, Except.pure]
    norm_num [score_of, h4, risk_of, pyRound, ratFloor_eq_intFloor]

/-- Counterexample to C6 as stated: `air_data` with "main" bound to the
number 3 is malformed input, and the handler raises `AttributeError`
(surfaced to the client as a 500), instead of defaulting. -/
theorem claim_C6_counterexample :
    run_diagnostic ⟨"u", [("main", JVal.jnum 3)], "Healthy", false, false⟩ =
      .error "AttributeError: object has no attribute get" := rfl

/-- Witness for C6 at the empty `air_data`: aqi defaults to 1 and the pm2_5
component defaults to 0. -/
theorem claim_C6_witness :
    get_aqi [] = Except.ok (JVal.jnum 1) ∧
    get_component [] "pm2_5" = Except.ok (JVal.jnum 0) :=
  ⟨(claim_C6_defaults []).1 rfl, (claim_C6_defaults []).2.2.1 rfl "pm2_5"⟩

/-- C7: save unconditionally overwrites the entry keyed by user_id with the
submitted fields stamped `updated_at := now` and always acknowledges success;
a get after a save returns exactly the saved fields plus the stamp; a get for
an absent user id fails with 404; saving touches no other key. -/
theorem claim_C7_profile_store :
    (∀ (store : ProfileStore) (profile : UserProfile) (now : String),
      (save_user_profile store profile now).2 =
        { status := "success", message := "Profile saved successfully" }) ∧
    (∀ (store : ProfileStore) (profile : UserProfile) (now : String),
      get_user_profile (save_user_profile store profile now).1 profile.user_id =
        .ok { condition := profile.condition
              smoke := profile.smoke
              drink := profile.drink
              air_data := profile.air_data
              updated_at := now }) ∧
    (∀ (store : ProfileStore) (uid : String),
      store uid = none → get_user_profile store uid = .error (404, "Profile not found")) ∧
    (∀ (store : ProfileStore) (profile : UserProfile) (now : String) (uid : String),
      uid ≠ profile.user_id → (save_user_profile store profile now).1 uid = store uid) := by
  refine ⟨fun store profile now => rfl, fun store profile now => ?_,
    fun store uid h => ?_, fun store profile now uid h => ?_⟩
  · simp [get_user_profile, save_user_profile]
  · simp [get_user_profile, h]
  · simp [save_user_profile, h]

/-- Witness for C7: a save into the empty store followed by a get returns the
saved fields plus the stamp, and a get for a never-saved id is a 404. -/
theorem claim_C7_witness :
    get_user_profile
        (save_user_profile emptyStore ⟨"u1", "Asthma", true, false, none⟩ "2024-01-01T00:00:00").1
        "u1" =
      .ok { condition := "Asthma", smoke := true, drink := false, air_data := none
            updated_at := "2024-01-01T00:00:00" } ∧
    get_user_profile emptyStore "u2" = .error (404, "Profile not found") :=
  ⟨claim_C7_profile_store.2.1 emptyStore ⟨"u1", "Asthma", true, false, none⟩ "2024-01-01T00:00:00",
   claim_C7_profile_store.2.2.1 emptyStore "u2" rfl⟩

/-- C8: the diagnostic endpoint is pure and deterministic: it leaves the
profile store untouched, its response does not depend on the store, and it is
the function of the request body alone. -/
theorem claim_C8_diagnostic_pure :
    ∀ (store1 store2 : ProfileStore) (request : DiagnosticRequest),
      (app_run_diagnostic store1 request).1 = store1 ∧
      (app_run_diagnostic store1 request).2 = (app_run_diagnostic store2 request).2 ∧
      (app_run_diagnostic store1 request).2 =
        (run_diagnostic request).mapError (fun e => (500, e)) :=
  fun _ _ _ => ⟨rfl, rfl, rfl⟩

/-- C9: two diagnostic requests with the same condition, smoke and drink and
the same "main" entry of `air_data` — in particular two requests differing
only in user_id and in pollutant component values — produce the same score,
risk_level and recommendation. -/
theorem claim_C9_noninterference (r1 r2 : DiagnosticRequest) (res1 res2 : DiagnosticResult)
    (hcond : r1.condition = r2.condition)
    (hsmoke : r1.smoke = r2.smoke)
    (hdrink : r1.drink = r2.drink)
    (hmain : r1.air_data.lookup "main" = r2.air_data.lookup "main")
    (h1 : run_diagnostic r1 = .ok res1)
    (h2 : run_diagnostic r2 = .ok res2) :
    res1.score = res2.score ∧
    res1.risk_level = res2.risk_level ∧
    res1.recommendation = res2.recommendation := by
  obtain ⟨aJ1, p1, n1, s1, c1, aN1, h11, _, _, _, _, h16, hres1⟩ :=
    run_diagnostic_spec r1 res1 h1
  obtain ⟨aJ2, p2, n2, s2, c2, aN2, h21, _, _, _, _, h26, hres2⟩ :=
    run_diagnostic_spec r2 res2 h2
  rw [get_aqi_congr hmain, h21] at h11
  obtain rfl : aJ2 = aJ1 := Except.ok.inj h11
  rw [h16] at h26
  obtain rfl : aN1 = aN2 := Except.ok.inj h26
  subst hres1
  subst hres2
  refine ⟨?_, ?_, ?_⟩
  · show pyRound (score_of aN1 r1.condition r1.smoke r1.drink) =
      pyRound (score_of aN1 r2.condition r2.smoke r2.drink)
    rw [hcond, hsmoke, hdrink]
  · show (risk_of (score_of aN1 r1.condition r1.smoke r1.drink)).1 =
      (risk_of (score_of aN1 r2.condition r2.smoke r2.drink)).1
    rw [hcond, hsmoke, hdrink]
  · show (risk_of (score_of aN1 r1.condition r1.smoke r1.drink)).2
        ++ condition_advice r1.condition ++ smoke_advice r1.smoke =
      (risk_of (score_of aN1 r2.condition r2.smoke r2.drink)).2
        ++ condition_advice r2.condition ++ smoke_advice r2.smoke
    rw [hcond, hsmoke, hdrink]

/-- An asthmatic user named alice with pm2_5 measured at 10. -/
def aliceReq : DiagnosticRequest :=
  ⟨"alice",
   [("main", JVal.jobj [("aqi", JVal.jnum 2)]), ("components", JVal.jobj [("pm2_5", JVal.jnum 10)])],
   "Asthma", false, false⟩

/-- The response to `aliceReq`. -/
def aliceRes : DiagnosticResult :=
  { score := 5
    risk_level := "Low"
    recommendation := "Air quality is good. Maintain your healthy lifestyle. Keep your inhaler accessible."
    air_quality := ⟨JVal.jnum 2, JVal.jnum 10, JVal.jnum 0, JVal.jnum 0, JVal.jnum 0⟩ }

/-- The same medical data as alice under another user id, with a different
pm2_5 reading. -/
def bobReq : DiagnosticRequest :=
  ⟨"bob",
   [("main", JVal.jobj [("aqi", JVal.jnum 2)]), ("components", JVal.jobj [("pm2_5", JVal.jnum 99)])],
   "Asthma", false, false⟩

/-- The response to `bobReq`: same score, risk and recommendation as alice,
different echoed pm2_5. -/
def bobRes : DiagnosticResult :=
  { score := 5
    risk_level := "Low"
    recommendation := "Air quality is good. Maintain your healthy lifestyle. Keep your inhaler accessible."
    air_quality := ⟨JVal.jnum 2, JVal.jnum 99, JVal.jnum 0, JVal.jnum 0, JVal.jnum 0⟩ }

theorem run_diagnostic_alice : run_diagnostic aliceReq = .ok aliceRes := by
  have h1 : get_aqi aliceReq.air_data = .ok (JVal.jnum 2) := rfl
  have h2a : get_component aliceReq.air_data "pm2_5" = .ok (JVal.jnum 10) := rfl
  have h2b : get_component aliceReq.air_data "no2" = .ok (JVal.jnum 0) := rfl
  have h2c : get_component aliceReq.air_data "so2" = .ok (JVal.jnum 0) := rfl
  have h2d : get_component aliceReq.air_data "co" = .ok (JVal.jnum 0) := rfl
  have h3 : pyNum (JVal.jnum 2) = .ok 2 := rfl
  have h4 : multiplier_of "Asthma" = (2.5 : ℚ) := rfl
  have h5 : condition_advice "Asthma" = " Keep your inhaler accessible." := rfl
  have h6 : smoke_advice false = "" := rfl
  have h7 : ∀ s : String, s ++ "" = s := fun s => String.append_empty s
  simp only [run_diagnostic, h1, h2a, h2b, h2c, h2d, h3, h5, h6, h7,
    Bind.bind, Except.bind, pure, Except.pure]
  simp only [aliceReq, aliceRes]
  norm_num [score_of, h4, risk_of, pyRound, ratFloor_eq_intFloor]
  rfl

theorem run_diagnostic_bob : run_diagnostic bobReq = .ok bobRes := by
  have h1 : get_aqi bobReq.air_data = .ok (JVal.jnum 2) := rfl
  have h2a : get_component bobReq.air_data "pm2_5" = .ok (JVal.jnum 99) := rfl
  have h2b : get_component bobReq.air_data "no2" = .ok (JVal.jnum 0) := rfl
  have h2c : get_component bobReq.air_data "so2" = .ok (JVal.jnum 0) := rfl
  have h2d : get_component bobReq.air_data "co" = .ok (JVal.jnum 0) := rfl
  have h3 : pyNum (JVal.jnum 2) = .ok 2 := rfl
  have h4 : multiplier_of "Asthma" = (2.5 : ℚ) := rfl
  have h5 : condition_advice "Asthma" = " Keep your inhaler accessible." := rfl
  have h6 : smoke_advice false = "" := rfl
  have h7 : ∀ s : String, s ++ "" = s := fun s => String.append_empty s
  simp only [run_diagnostic, h1, h2a, h2b, h2c, h2d, h3, h5, h6, h7,
    Bind.bind, Except.bind, pure, Except.pure]
  simp only [bobReq, bobRes]
  norm_num [score_of, h4, risk_of, pyRound, ratFloor_eq_intFloor]
  rfl

/-- Witness for C9: alice and bob differ only in user id and pm2_5, and get
identical score, risk level and recommendation. -/
theorem claim_C9_witness :
    aliceRes.score = bobRes.score ∧
    aliceRes.risk_level = bobRes.risk_level ∧
    aliceRes.recommendation = bobRes.recommendation :=
  claim_C9_noninterference aliceReq bobReq aliceRes bobRes rfl rfl rfl rfl
    run_diagnostic_alice run_diagnostic_bob

/-- An asthmatic user at air-quality index 1: raw score 2.5. -/
def asthmaReq1 : DiagnosticRequest :=
  ⟨"u", [("main", JVal.jobj [("aqi", JVal.jnum 1)])], "Asthma", false, false⟩

/-- The response to `asthmaReq1`: 2.5 rounds half to even down to 2. -/
def asthmaRes1 : DiagnosticResult :=
  { score := 2
    risk_level := "Low"
    recommendation := "Air quality is good. Maintain your healthy lifestyle. Keep your inhaler accessible."
    air_quality := ⟨JVal.jnum 1, JVal.jnum 0, JVal.jnum 0, JVal.jnum 0, JVal.jnum 0⟩ }

theorem run_diagnostic_asthma1 : run_diagnostic asthmaReq1 = .ok asthmaRes1 := by
  have h1 : get_aqi asthmaReq1.air_data = .ok (JVal.jnum 1) := rfl
  have h2 : ∀ k, get_component asthmaReq1.air_data k = .ok (JVal.jnum 0) := fun k => rfl
  have h3 : pyNum (JVal.jnum 1) = .ok 1 := rfl
  have h4 : multiplier_of "Asthma" = (2.5 : ℚ) := rfl
  have h5 : condition_advice "Asthma" = " Keep your inhaler accessible." := rfl
  have h6 : smoke_advice false = "" := rfl
  have h7 : ∀ s : String, s ++ "" = s := fun s => String.append_empty s
  simp only [run_diagnostic, h1, h2, h3, h5, h6, h7, Bind.bind, Except.bind, pure, Except.pure]
  simp only [asthmaReq1, asthmaRes1]
  norm_num [score_of, h4, risk_of, pyRound, ratFloor_eq_intFloor]
  rfl

/-- An asthmatic user at air-quality index 3: raw score 7.5. -/
def asthmaReq3 : DiagnosticRequest :=
  ⟨"u", [("main", JVal.jobj [("aqi", JVal.jnum 3)])], "Asthma", false, false⟩

/-- The response to `asthmaReq3`: 7.5 rounds half to even up to 8. -/
def asthmaRes3 : DiagnosticResult :=
  { score := 8
    risk_level := "Low"
    recommendation := "Air quality is good. Maintain your healthy lifestyle. Keep your inhaler accessible."
    air_quality := ⟨JVal.jnum 3, JVal.jnum 0, JVal.jnum 0, JVal.jnum 0, JVal.jnum 0⟩ }

theorem run_diagnostic_asthma3 : run_diagnostic asthmaReq3 = .ok asthmaRes3 := by
  have h1 : get_aqi asthmaReq3.air_data = .ok (JVal.jnum 3) := rfl
  have h2 : ∀ k, get_component asthmaReq3.air_data k = .ok (JVal.jnum 0) := fun k => rfl
  have h3 : pyNum (JVal.jnum 3) = .ok 3 := rfl
  have h4 : multiplier_of "Asthma" = (2.5 : ℚ) := rfl
  have h5 : condition_advice "Asthma" = " Keep your inhaler accessible." := rfl
  have h6 : smoke_advice false = "" := rfl
  have h7 : ∀ s : String, s ++ "" = s := fun s => String.append_empty s
  simp only [run_diagnostic, h1, h2, h3, h5, h6, h7, Bind.bind, Except.bind, pure, Except.pure]
  simp only [asthmaReq3, asthmaRes3]
  norm_num [score_of, h4, risk_of, pyRound, ratFloor_eq_intFloor]
  rfl

/-- C10: the returned score is the raw score rounded half to even: integers
round to themselves, a raw score of z + 1/2 rounds to the even neighbour, and
the Asthma examples at index 1 and 3 (raw 2.5 and 7.5) return 2 and 8. -/
theorem claim_C10_round_half_even (request : DiagnosticRequest) (res : DiagnosticResult)
    (aqiJ : JVal) (aqiN s : ℚ)
    (hrun : run_diagnostic request = .ok res)
    (haqi : get_aqi request.air_data = .ok aqiJ)
    (hnum : pyNum aqiJ = .ok aqiN)
    (hs : s = score_of aqiN request.condition request.smoke request.drink) :
    res.score = pyRound s ∧
    (∀ z : ℤ, pyRound (z : ℚ) = z) ∧
    (∀ z : ℤ, pyRound ((z : ℚ) + 1/2) = if z % 2 = 0 then z else z + 1) ∧
    pyRound (5/2 : ℚ) = 2 ∧
    pyRound (15/2 : ℚ) = 8 ∧
    Except.map (fun r => r.score) (run_diagnostic asthmaReq1) = .ok 2 ∧
    Except.map (fun r => r.score) (run_diagnostic asthmaReq3) = .ok 8 := by
  obtain ⟨aqiJ', pm25, no2, so2, co, aqiN', h1, _, _, _, _, h6, hres⟩ :=
    run_diagnostic_spec request res hrun
  rw [haqi] at h1
  obtain rfl : aqiJ = aqiJ' := Except.ok.inj h1
  rw [hnum] at h6
  obtain rfl : aqiN = aqiN' := Except.ok.inj h6
  subst hres
  refine ⟨by rw [hs], fun z => ?_, fun z => ?_, ?_, ?_, ?_, ?_⟩
  · unfold pyRound
    rw [ratFloor_eq_intFloor, Int.floor_intCast]
    norm_num
  · have hf : ((z : ℚ) + 1/2).floor = z := by
      rw [ratFloor_eq_intFloor, Int.floor_int_add]
      norm_num
    unfold pyRound
    rw [hf]
    have h2 : (z : ℚ) + 1/2 - z = 1/2 := by ring
    rw [h2]
    norm_num
  · unfold pyRound
    norm_num [ratFloor_eq_intFloor]
  · unfold pyRound
    norm_num [ratFloor_eq_intFloor]
  · rw [run_diagnostic_asthma1]
    rfl
  · rw [run_diagnostic_asthma3]
    rfl

/-- Witness for C10 at the Asthma index-1 request: the returned score is the
half-even rounding of the raw score 5/2, namely 2. -/
theorem claim_C10_witness :
    asthmaRes1.score = pyRound (5/2 : ℚ) ∧ asthmaRes1.score = 2 :=
  ⟨(claim_C10_round_half_even asthmaReq1 asthmaRes1 (JVal.jnum 1) 1 (5/2)
      run_diagnostic_asthma1 rfl rfl
      (by simp only [asthmaReq1]; rw [score_of_eq, multiplier_of_asthma]; norm_num)).1,
   rfl⟩

/-- C1: both air-quality endpoints translate a transport failure into a 500
carrying the exception text — that part of the claim holds.  But on a
provider response with a non-success HTTP status, the inner
`HTTPException(response.status_code, ...)` is caught by the blanket
`except Exception` clause, so the endpoint fails with 500 for every provider
status instead of forwarding it, with `str(e)` (provider status and fixed
detail text) as the message: with provider status 404 the client receives
500, not 404. -/
theorem claim_C1_upstream_error_status :
    (∀ msg, get_air_quality (.transportFailure msg) = .error (500, msg)) ∧
    (∀ msg, get_air_quality_history (.transportFailure msg) = .error (500, msg)) ∧
    (∀ status, get_air_quality (.httpFailure status) =
      .error (500, toString status ++ ": " ++ "Failed to fetch air quality data")) ∧
    (∀ status, get_air_quality_history (.httpFailure status) =
      .error (500, toString status ++ ": " ++ "Failed to fetch air quality history")) ∧
    get_air_quality (.httpFailure 404) =
      .error (500, "404: Failed to fetch air quality data") :=
  ⟨fun _ => rfl, fun _ => rfl, fun _ => rfl, fun _ => rfl, rfl⟩

end AeroPulse
